import Mathlib

/-!
Verification of the CDDL schema interpreter (JSON target).

The definitions below are a shallow embedding of the validation code:
the abstract syntax tree consumed by the validator, the JSON value
model, the helper predicates of `src/validation/mod.rs` and
`src/validator/mod.rs`, and the recursive JSON validator of
`src/validation/json/mod.rs`.  Rust machine integers are modelled as
`Int`/`Nat` with explicit bound checks where the source performs
fallible conversions (`as_i64`, `as_u64`), and `f64` arithmetic is
modelled over `ℚ` (the inputs exercised here are exactly
representable).  Recursive functions whose termination depends on the
rule graph take an explicit fuel argument; exhausting the fuel is a
distinct outcome, so divergence of the source is modelled as
exhaustion at every finite fuel.
-/

namespace CddlSpec

/-- A JSON number as held by the deserializer: either an integer
(parsed without loss) or a floating value, here modelled over `ℚ`. -/
inductive JNum where
  | int (i : Int)
  | float (q : ℚ)
  deriving DecidableEq, Repr

/-- The JSON value model (`serde_json::Value`): maps are association
lists looked up by first match. -/
inductive Value where
  | null
  | bool (b : Bool)
  | number (n : JNum)
  | str (s : String)
  | array (vs : List Value)
  | object (kvs : List (String × Value))
  deriving Repr

/-- `Number::as_i64`: integers within the `i64` range. -/
def JNum.asI64 : JNum → Option Int
  | .int i => if -(2 ^ 63) ≤ i ∧ i < 2 ^ 63 then some i else none
  | .float _ => none

/-- `Number::as_u64`: non-negative integers within the `u64` range. -/
def JNum.asU64 : JNum → Option Int
  | .int i => if 0 ≤ i ∧ i < 2 ^ 64 then some i else none
  | .float _ => none

/-- `Number::as_f64`: always succeeds, integers are widened. -/
def JNum.asF64 : JNum → Option ℚ
  | .int i => some (i : ℚ)
  | .float q => some q

/-- Lookup in a JSON object (`Map::get`), first matching key. -/
def objGet : List (String × Value) → String → Option Value
  | [], _ => none
  | (k, v) :: rest, key => if k = key then some v else objGet rest key

/-- Occurrence indicator (`Occur`); source spans dropped, and the
wrapping `Occurrence` struct is identified with its `occur` field. -/
inductive Occur where
  | zeroOrMore
  | oneOrMore
  | optional
  | exact (lower upper : Option Nat)
  deriving DecidableEq, Repr

/-- Range or control operator tag (`RangeCtlOp`). -/
inductive RangeCtlOp where
  | rangeOp (isInclusive : Bool)
  | ctlOp (ctrl : String)
  deriving DecidableEq, Repr

/-- Literal held by a `MemberKey::Value` member key (`token::Value`);
the JSON validator routes these to its member-key error arm. -/
inductive TokenValue where
  | text (s : String)
  | int (i : Int)
  | uint (n : Nat)
  | float (q : ℚ)
  | bool (b : Bool)
  deriving DecidableEq, Repr

mutual

/-- `Type2` of the AST consumed by the validator.  `isize`/`usize`
literal payloads are `Int`/`Nat`, `f64` is `ℚ`, byte strings are byte
lists, and generic argument lists (never interpreted by this
validator) are tracked only by presence. -/
inductive Type2 where
  | textValue (s : String)
  | utf8ByteString (bs : List Nat)
  | b16ByteString (bs : List Nat)
  | b64ByteString (bs : List Nat)
  | intValue (i : Int)
  | uintValue (n : Nat)
  | floatValue (q : ℚ)
  | typename (ident : String) (genericArgs : Option Unit)
  | parenthesizedType (pt : Ty)
  | mapT (g : Grp)
  | arrayT (g : Grp)
  | unwrap (ident : String) (genericArgs : Option Unit)
  | choiceFromInlineGroup (g : Grp)
  | choiceFromGroup (ident : String) (genericArgs : Option Unit)
  | taggedData (tag : Option Nat) (t : Ty)
  | any

/-- `Type1`: a `Type2` with an optional range/control operator and its
right-hand `Type2` (the `Operator` struct flattened to a pair). -/
inductive Type1 where
  | mk (type2 : Type2) (operator : Option (RangeCtlOp × Type2))

/-- `Type`: its ordered `TypeChoice`s, each a transparent wrapper
around a `Type1` (the wrapper is flattened away). -/
inductive Ty where
  | mk (typeChoices : List Type1)

/-- `Group`: ordered group choices. -/
inductive Grp where
  | mk (groupChoices : List GrpChoice)

/-- `GroupChoice`: ordered group entries (the trailing-comma trivia of
each entry tuple is dropped). -/
inductive GrpChoice where
  | mk (groupEntries : List GroupEntry)

/-- `GroupEntry`; the boxed `ValueMemberKeyEntry` and
`TypeGroupnameEntry` payloads are flattened into constructor fields. -/
inductive GroupEntry where
  | valueMemberKey (occur : Option Occur) (memberKey : Option MemberKey) (entryType : Ty)
  | typeGroupname (occur : Option Occur) (name : String) (genericArgs : Option Unit)
  | inlineGroup (occur : Option Occur) (g : Grp)

/-- `MemberKey`; `is_cut` records the `^` marker. -/
inductive MemberKey where
  | type1 (t1 : Type1) (isCut : Bool)
  | bareword (ident : String)
  | valueKey (v : TokenValue)

end

/-- Projection for `Type1.type2`. -/
def Type1.type2 : Type1 → Type2
  | .mk t2 _ => t2

/-- Projection for `Type1.operator`. -/
def Type1.operator : Type1 → Option (RangeCtlOp × Type2)
  | .mk _ op => op

/-- Projection for `Type.type_choices` (each choice as its `Type1`). -/
def Ty.typeChoices : Ty → List Type1
  | .mk tcs => tcs

/-- Projection for `Group.group_choices`. -/
def Grp.groupChoices : Grp → List GrpChoice
  | .mk gcs => gcs

/-- Projection for `GroupChoice.group_entries`. -/
def GrpChoice.groupEntries : GrpChoice → List GroupEntry
  | .mk ges => ges

/-- `TypeRule`: a named type rule; identifiers are their `ident`
strings, generic parameter lists tracked by presence. -/
structure TypeRule where
  name : String
  genericParams : Option Unit
  isTypeChoiceAlternate : Bool
  value : Ty

/-- `GroupRule`. -/
structure GroupRule where
  name : String
  genericParams : Option Unit
  isGroupChoiceAlternate : Bool
  entry : GroupEntry

/-- `Rule`. -/
inductive Rule where
  | typeRule (rule : TypeRule)
  | groupRule (rule : GroupRule)

/-- `CDDL`: the parsed document, an ordered list of rules. -/
structure CDDL where
  rules : List Rule

/-! ### Rendering

The `Display` implementations live outside the four analysed source
files.  Modelled from the spec: renderings are used only inside
diagnostic strings and, semantically, only through the prelude-name
membership test `is_type_json_prelude`, so literal and typename forms
are rendered exactly and nested forms are abbreviated. -/

/-- Render a `Type2` (literals and typenames exact, nested forms
abbreviated). -/
def type2ToString : Type2 → String
  | .textValue s => "\"" ++ s ++ "\""
  | .utf8ByteString _ => "<utf8 bytes>"
  | .b16ByteString _ => "<b16 bytes>"
  | .b64ByteString _ => "<b64 bytes>"
  | .intValue i => toString i
  | .uintValue n => toString n
  | .floatValue q => toString q
  | .typename id ga => if ga.isSome then id ++ "<...>" else id
  | .parenthesizedType _ => "( ... )"
  | .mapT _ => "<map>"
  | .arrayT _ => "<array>"
  | .unwrap id _ => "~" ++ id
  | .choiceFromInlineGroup _ => "&( ... )"
  | .choiceFromGroup id _ => "&" ++ id
  | .taggedData _ _ => "<tagged data>"
  | .any => "any"

/-- Render a `RangeCtlOp`. -/
def rangeCtlOpToString : RangeCtlOp → String
  | .rangeOp true => ".."
  | .rangeOp false => "..."
  | .ctlOp ctrl => "." ++ ctrl

/-- Render a `Type1`: its `Type2` followed by any operator and rhs. -/
def type1ToString : Type1 → String
  | .mk t2 none => type2ToString t2
  | .mk t2 (some (op, rhs)) => type2ToString t2 ++ rangeCtlOpToString op ++ type2ToString rhs

/-- Render a `Type`: its choices joined by the choice separator. -/
def typeToString (t : Ty) : String :=
  String.intercalate " / " (t.typeChoices.map type1ToString)

/-- Render a `TokenValue` literal. -/
def tokenValueToString : TokenValue → String
  | .text s => "\"" ++ s ++ "\""
  | .int i => toString i
  | .uint n => toString n
  | .float q => toString q
  | .bool b => toString b

/-- Render a `MemberKey`. -/
def memberKeyToString : MemberKey → String
  | .type1 t1 true => type1ToString t1 ++ " ^ =>"
  | .type1 t1 false => type1ToString t1 ++ " =>"
  | .bareword id => id
  | .valueKey v => tokenValueToString v

/-- Render a `GroupEntry` (abbreviated). -/
def groupEntryToString : GroupEntry → String
  | .valueMemberKey _ (some mk) et => memberKeyToString mk ++ " " ++ typeToString et
  | .valueMemberKey _ none et => typeToString et
  | .typeGroupname _ name _ => name
  | .inlineGroup _ _ => "( ... )"

/-- Render a `GroupChoice` (abbreviated). -/
def groupChoiceToString (gc : GrpChoice) : String :=
  String.intercalate ", " (gc.groupEntries.map groupEntryToString)

/-- Render a `JNum` for diagnostics. -/
def jnumToString : JNum → String
  | .int i => toString i
  | .float q => toString q

/-- Render a JSON value for diagnostics (abbreviated containers). -/
def valueToString : Value → String
  | .null => "null"
  | .bool b => toString b
  | .number n => jnumToString n
  | .str s => "\"" ++ s ++ "\""
  | .array _ => "<array>"
  | .object _ => "<object>"

/-! ### Errors and outcomes -/

/-- `JSONError`: the JSON-target validation error record. -/
structure JErr where
  expectedMemberkey : Option String
  expectedValue : String
  actualMemberkey : Option String
  actualValue : Value

/-- `validation::Error`.  `Error::Syntax` is `synError`,
`Error::Target(JSONError)` is `target`, `Error::Occurrence` is
`occurError`; the `Compilation` variant is produced only by the
string-level front end, which is outside the interpreter modelled
here. -/
inductive VErr where
  | synError (msg : String)
  | target (e : JErr)
  | occurError (msg : String)
  | multiError (es : List VErr)

/-- Outcome of running a validator function: an `Ok(())`, an
`Err(e)`, an abort via a panic (`unimplemented!`), or exhaustion of
the modelling fuel (standing for recursion that has not yet
returned). -/
inductive Res where
  | ok
  | err (e : VErr)
  | panicked
  | noFuel

/-- Is the outcome `Ok`. -/
def Res.isOk : Res → Bool
  | .ok => true
  | _ => false

/-- Is the outcome `Err`. -/
def Res.isErr : Res → Bool
  | .err _ => true
  | _ => false

/-- Did the call return a value at all (`Ok` or `Err`), as opposed to
aborting or exhausting fuel. -/
def Res.isSettled : Res → Bool
  | .ok => true
  | .err _ => true
  | _ => false

/-- The error of an `Err` outcome (placeholder otherwise). -/
def Res.errOf : Res → VErr
  | .err e => e
  | _ => .synError ""

/-- Result of a fuelled auxiliary computation. -/
inductive Fuelled (α : Type) where
  | noFuel
  | done (a : α)

/-- `token::Numeric`. -/
inductive Numeric where
  | INT (i : Int)
  | UINT (n : Nat)
  | FLOAT (q : ℚ)
  deriving DecidableEq, Repr

/-! ### Prelude classification -/

/-- `is_numeric_data_type` of `validation/mod.rs`. -/
def isNumericDataType : String → Bool
  | "uint" | "nint" | "int" | "number" | "float" | "float16" | "float32" | "float64"
  | "float16-32" | "float32-64" => true
  | _ => false

/-- `is_type_json_prelude` of `validation/json/mod.rs`. -/
def isTypeJsonPrelude : String → Bool
  | "any" | "uint" | "nint" | "int" | "tstr" | "text" | "number" | "float16" | "float32"
  | "float64" | "float16-32" | "float32-64" | "float" | "false" | "true" | "bool" | "nil"
  | "null" => true
  | _ => false

/-- The numeric-token test of `is_ident_numeric_data_type` in
`validator/mod.rs`: `lookup_ident` yields one of the twelve numeric
prelude tokens (the numeric group of the prelude, spec section 4.1). -/
def isNumericIdentToken : String → Bool
  | "uint" | "nint" | "integer" | "int" | "number" | "float" | "float16" | "float32"
  | "float64" | "float16-32" | "float32-64" | "unsigned" => true
  | _ => false

/-! ### Generic fuelled folds

The source iterates with `Iterator::any`, `find_map`, and `?`
propagation inside loops; results of the per-element calls are folded
with the same short-circuiting, with an abort (panic or exhausted
fuel) propagated from the first element that aborts. -/

/-- Fold of `.any` over fuelled boolean results. -/
def anyFuelled : List (Fuelled Bool) → Fuelled Bool
  | [] => .done false
  | .done true :: _ => .done true
  | .done false :: rest => anyFuelled rest
  | .noFuel :: _ => .noFuel

/-- Fold of `find_map` over fuelled optional results. -/
def firstSomeFuelled {α : Type} : List (Fuelled (Option α)) → Fuelled (Option α)
  | [] => .done none
  | .noFuel :: _ => .noFuel
  | .done (some a) :: _ => .done (some a)
  | .done none :: rest => firstSomeFuelled rest

/-- Fold of a loop that appends the `Ok` lists of fuelled fallible
results, propagating the first `Err` (the `?` operator). -/
def collectE {α : Type} (acc : List α) :
    List (Fuelled (Except VErr (List α))) → Fuelled (Except VErr (List α))
  | [] => .done (.ok acc)
  | .noFuel :: _ => .noFuel
  | .done (.error e) :: _ => .done (.error e)
  | .done (.ok l) :: rest => collectE (acc ++ l) rest

/-- Fold of the pervasive pattern `iter().any(|x| match validate x {
Ok => true, Err e => push e; false })` followed by
`Err(MultiError(errors))` when no element succeeded. -/
def collectAny (acc : List VErr) : List Res → Res
  | [] => .err (.multiError acc)
  | .ok :: _ => .ok
  | .err e :: rest => collectAny (acc ++ [e]) rest
  | .panicked :: _ => .panicked
  | .noFuel :: _ => .noFuel

/-- As `collectAny`, over entries that may not produce a validation at
all (`none` stands for a loop element that yields `false` without
recording an error, e.g. a non-`ValueMemberKey` group entry during
enumeration). -/
def collectAnyOpt (acc : List VErr) : List (Option Res) → Res
  | [] => .err (.multiError acc)
  | none :: rest => collectAnyOpt acc rest
  | some .ok :: _ => .ok
  | some (.err e) :: rest => collectAnyOpt (acc ++ [e]) rest
  | some .panicked :: _ => .panicked
  | some .noFuel :: _ => .noFuel

/-- Outcome of `iter().all(|v| validate v.is_ok())` where an abort
inside an element propagates. -/
inductive AllOutcome where
  | decided (b : Bool)
  | abort (r : Res)

/-- Fold for `AllOutcome`. -/
def allOkRes : List Res → AllOutcome
  | [] => .decided true
  | .ok :: rest => allOkRes rest
  | .err _ :: _ => .decided false
  | .panicked :: _ => .abort .panicked
  | .noFuel :: _ => .abort .noFuel

/-! ### Helper functions of `validation/mod.rs` (impl CDDL) -/

/-- All ordered `Type2`s of the type choices of the type rules named
`ident`, the iteration domain of the transitive helper predicates. -/
def choiceType2sOfRulesNamed (rules : List Rule) (ident : String) : List Type2 :=
  (rules.filterMap (fun r =>
    match r with
    | .typeRule tr =>
      if tr.name = ident then some (tr.value.typeChoices.map Type1.type2) else none
    | .groupRule _ => none)).flatten

/-- Inner choice scan of `numerical_value_type_from_ident`: numeric
literal choices are accumulated; the first `Typename` choice aborts
the whole scan with that identifier (the source returns the recursion
on it, discarding the accumulator); other choices are skipped. -/
def nvtScanChoices (acc : List Type2) : List Type1 → (List Type2) ⊕ String
  | [] => .inl acc
  | t1 :: rest =>
    match t1.type2 with
    | .intValue i => nvtScanChoices (acc ++ [.intValue i]) rest
    | .uintValue n => nvtScanChoices (acc ++ [.uintValue n]) rest
    | .floatValue q => nvtScanChoices (acc ++ [.floatValue q]) rest
    | .typename id2 _ => .inr id2
    | _ => nvtScanChoices acc rest

/-- Outer rule scan of `numerical_value_type_from_ident`. -/
def nvtScanRules (ident : String) (acc : List Type2) : List Rule → (List Type2) ⊕ String
  | [] => .inl acc
  | .typeRule tr :: rest =>
    if tr.name = ident then
      match nvtScanChoices acc tr.value.typeChoices with
      | .inl acc2 => nvtScanRules ident acc2 rest
      | .inr id2 => .inr id2
    else nvtScanRules ident acc rest
  | .groupRule _ :: rest => nvtScanRules ident acc rest

/-- `numerical_value_type_from_ident`: the numeric literal type
choices of the rules named `ident`, where the first `Typename` choice
replaces the whole result by that rule's expansion. -/
def numericalValueTypeFromIdent (cddl : CDDL) : Nat → String → Fuelled (Option (List Type2))
  | 0, _ => .noFuel
  | f + 1, ident =>
    match nvtScanRules ident [] cddl.rules with
    | .inl acc => .done (if acc.isEmpty then none else some acc)
    | .inr id2 => numericalValueTypeFromIdent cddl f id2

/-- `is_type_string_data_type`. -/
def isTypeStringDataType (cddl : CDDL) : Nat → Type2 → Fuelled Bool
  | 0, _ => .noFuel
  | f + 1, t2 =>
    match t2 with
    | .typename id _ =>
      if id = "text" ∨ id = "tstr" then .done true
      else anyFuelled ((choiceType2sOfRulesNamed cddl.rules id).map (isTypeStringDataType cddl f))
    | _ => .done false

/-- `is_type_numeric_data_type`. -/
def isTypeNumericDataType (cddl : CDDL) : Nat → Type2 → Fuelled Bool
  | 0, _ => .noFuel
  | f + 1, t2 =>
    match t2 with
    | .typename id _ =>
      if isNumericDataType id then .done true
      else anyFuelled ((choiceType2sOfRulesNamed cddl.rules id).map (isTypeNumericDataType cddl f))
    | _ => .done false

/-- `text_values_from_type`. -/
def textValuesFromType (cddl : CDDL) : Nat → Type2 → Fuelled (Except VErr (List String))
  | 0, _ => .noFuel
  | f + 1, t2 =>
    match t2 with
    | .textValue s => .done (.ok [s])
    | .typename id _ =>
      collectE [] ((choiceType2sOfRulesNamed cddl.rules id).map (textValuesFromType cddl f))
    | _ => .done (.error (.synError
        "Value can only be referenced via another type name identifier"))

/-- `numerical_ident_from_type`. -/
def numericalIdentFromType (cddl : CDDL) : Nat → Type2 → Fuelled (Except VErr (List String))
  | 0, _ => .noFuel
  | f + 1, t2 =>
    match t2 with
    | .typename id _ =>
      if isNumericDataType id then .done (.ok [id])
      else collectE [] ((choiceType2sOfRulesNamed cddl.rules id).map (numericalIdentFromType cddl f))
    | _ => .done (.error (.synError
        "Numeric identifier can only be referenced via another type name identifier"))

/-- `numeric_values_from_type`: the numeric literals denoted by the
controller, admitted only when compatible with the numeric idents the
target resolves to. -/
def numericValuesFromType (cddl : CDDL) : Nat → Type2 → Type2 → Fuelled (Except VErr (List Numeric))
  | 0, _, _ => .noFuel
  | f + 1, target, controller =>
    match numericalIdentFromType cddl f target with
    | .noFuel => .noFuel
    | .done (.error e) => .done (.error e)
    | .done (.ok targetIdents) =>
      match controller with
      | .intValue i =>
        if targetIdents.any (fun ti => ti = "int" ∨ ti = "number") then .done (.ok [.INT i])
        else .done (.error (.synError
          "Target data type must be an int or number in order to validate against an integer value"))
      | .uintValue n =>
        if targetIdents.any (fun ti => ti = "uint" ∨ ti = "number") then .done (.ok [.UINT n])
        else .done (.error (.synError
          "Target data type must be a uint or number in order to validate against an unsigned integer value"))
      | .floatValue q =>
        if targetIdents.any (fun ti =>
            ti = "float" ∨ ti = "float16" ∨ ti = "float32" ∨ ti = "float64" ∨
            ti = "float16-32" ∨ ti = "float32-64" ∨ ti = "number") then
          .done (.ok [.FLOAT q])
        else .done (.error (.synError
          "Target data type must be a float or number in order to validate against a float value"))
      | .typename id _ =>
        collectE []
          ((choiceType2sOfRulesNamed cddl.rules id).map (numericValuesFromType cddl f target))
      | _ => .done (.error (.synError
          "Value can only be referenced via another type name identifier whose target type is the type of the value"))

/-! ### Helper functions of `validator/mod.rs` -/

/-- The `Typename` choice identifiers of the type rules named `ident`,
the recursion domain of the `is_ident_*` predicates. -/
def typenameChoiceIdents (rules : List Rule) (ident : String) : List String :=
  (rules.filterMap (fun r =>
    match r with
    | .typeRule tr =>
      if tr.name = ident then
        some (tr.value.typeChoices.filterMap (fun t1 =>
          match t1.type2 with
          | .typename id2 _ => some id2
          | _ => none))
      else none
    | .groupRule _ => none)).flatten

/-- `is_ident_numeric_data_type` of `validator/mod.rs`: a numeric
prelude token, or transitively some `Typename` choice of a rule with
this name satisfies the predicate.  No visited set is kept. -/
def isIdentNumericDataType (cddl : CDDL) : Nat → String → Fuelled Bool
  | 0, _ => .noFuel
  | f + 1, ident =>
    if isNumericIdentToken ident then .done true
    else anyFuelled ((typenameChoiceIdents cddl.rules ident).map (isIdentNumericDataType cddl f))

/-- Does the type choice hold a `Map`, `Array` or `TaggedData`
(the container test of `unwrap_rule_from_ident`). -/
def isContainerChoice (t1 : Type1) : Bool :=
  match t1.type2 with
  | .mapT _ | .arrayT _ | .taggedData _ _ => true
  | _ => false

/-- First type choice that is a `Typename` without generic arguments
(the fallthrough of `unwrap_rule_from_ident`). -/
def firstTypenameNoGa : List Type1 → Option String
  | [] => none
  | t1 :: rest =>
    match t1.type2 with
    | .typename id2 none => some id2
    | _ => firstTypenameNoGa rest

/-- Per-rule contribution to the `find_map` of
`unwrap_rule_from_ident`: skip, a found rule, or a recursion target. -/
def unwrapContribution (ident : String) : Rule → Option (Rule ⊕ String)
  | .typeRule tr =>
    if tr.name = ident ∧ ¬tr.isTypeChoiceAlternate then
      if tr.value.typeChoices.any isContainerChoice then some (.inl (.typeRule tr))
      else
        match firstTypenameNoGa tr.value.typeChoices with
        | some id2 => some (.inr id2)
        | none => none
    else none
  | .groupRule _ => none

/-- `unwrap_rule_from_ident`: the first non-alternate type rule named
`ident` holding a container choice, following first `Typename`
choices transitively; a failed recursion lets the scan continue with
later rules. -/
def unwrapRuleFromIdent (cddl : CDDL) : Nat → String → Fuelled (Option Rule)
  | 0, _ => .noFuel
  | f + 1, ident =>
    firstSomeFuelled (cddl.rules.map (fun r =>
      match unwrapContribution ident r with
      | none => .done none
      | some (.inl rr) => .done (some rr)
      | some (.inr id2) => unwrapRuleFromIdent cddl f id2))

/-- `EntryCount` of `validator/mod.rs`. -/
structure EntryCount where
  count : Nat
  entryOccurrence : Option Occur

/-- `validate_entry_count`. -/
def validateEntryCount (validEntryCounts : List EntryCount) (numEntries : Nat) : Bool :=
  validEntryCounts.any (fun ec =>
    numEntries = ec.count ||
      match ec.entryOccurrence with
      | some .zeroOrMore | some .optional => true
      | some .oneOrMore => numEntries > 0
      | some (.exact lower upper) =>
        match lower, upper with
        | some l, some u => numEntries ≥ l && numEntries ≤ u
        | some l, none => numEntries ≥ l
        | none, some u => numEntries ≤ u
        | none, none => false
      | none => false)

/-- Render an `Occur` (the `Display` of `ast.rs`). -/
def occurToString : Occur → String
  | .zeroOrMore => "*"
  | .oneOrMore => "+"
  | .optional => "?"
  | .exact (some l) (some u) => toString l ++ "*" ++ toString u
  | .exact (some l) none => toString l ++ "*"
  | .exact none (some u) => "*" ++ toString u
  | .exact none none => "*"

/-- `validate_array_occurrence` of `validator/mod.rs`: array length
and homogeneity policy from the occurrence indicator; returns
(iterate-each-item, allow-empty-array) or the accumulated error
strings. -/
def validateArrayOccurrenceNew (occurrence : Option Occur)
    (entryCounts : Option (List EntryCount)) (values : List Value) :
    Except (List String) (Bool × Bool) :=
  let allowEmptyArray := occurrence = some .optional
  let (iterItems, errors0) : Bool × List String :=
    match occurrence with
    | some .zeroOrMore => (true, [])
    | some .oneOrMore =>
      if values.isEmpty then (false, ["array must have at least one item"]) else (true, [])
    | some (.exact lower upper) =>
      let errs :=
        match lower, upper with
        | some l, some u =>
          (if l = u ∧ values.length ≠ l then
            ["array must have exactly " ++ toString l ++ " items"] else []) ++
          (if values.length < l ∨ values.length > u then
            ["array must have between " ++ toString l ++ " and " ++ toString u ++ " items"]
           else [])
        | some l, none =>
          if values.length < l then
            ["array must have at least " ++ toString l ++ " items"] else []
        | none, some u =>
          if values.length > u then
            ["array must have not more than " ++ toString u ++ " items"] else []
        | none, none => []
      (true, errs)
    | some .optional =>
      if values.length > 1 then (false, ["array must have 0 or 1 items"]) else (false, [])
    | none =>
      if values.isEmpty then (false, ["array must have exactly one item"]) else (false, [])
  let errors :=
    if ¬iterItems ∧ ¬allowEmptyArray then
      match entryCounts with
      | some ecs =>
        if ¬validateEntryCount ecs values.length then
          errors0 ++ ecs.map (fun ec =>
            match ec.entryOccurrence with
            | some occ => "expecting array with length per occurrence " ++ occurToString occ
            | none =>
              "expecting array with length " ++ toString ec.count ++ ", got " ++
                toString values.length)
        else errors0
      | none => errors0
    else errors0
  if errors.isEmpty then .ok (iterItems, allowEmptyArray) else .error errors

/-! ### Leaf validators of `validation/json/mod.rs` -/

/-- `f64::EPSILON`. -/
def f64Epsilon : ℚ := 1 / 2 ^ 52

/-- `usize as i64`: two-complement wrap into the `i64` range. -/
def usizeAsI64 (n : Nat) : Int := ((n : Int) + 2 ^ 63) % 2 ^ 64 - 2 ^ 63

/-- `validate_numeric_value`: equality of a JSON number against an
`IntValue` (via `as_i64`) or a `FloatValue` (via `as_f64`, within
`f64::EPSILON`); every other `Type2` — including `UintValue` — falls
into the final catch-all arm that returns `Ok(())`. -/
def validateNumericValue (t2 : Type2) (v : Value) : Res :=
  match v with
  | .number n =>
    match t2 with
    | .intValue i =>
      match n.asI64 with
      | some x => if x = i then .ok else .err (.target ⟨none, type2ToString t2, none, v⟩)
      | none => .err (.target ⟨none, type2ToString t2, none, v⟩)
    | .floatValue q =>
      match n.asF64 with
      | some x =>
        if |x - q| < f64Epsilon then .ok else .err (.target ⟨none, type2ToString t2, none, v⟩)
      | none => .err (.target ⟨none, type2ToString t2, none, v⟩)
    | _ => .ok
  | _ => .err (.target ⟨none, type2ToString t2, none, v⟩)

/-- `expect_null`. -/
def expectNull (ident : String) : Res :=
  match ident with
  | "null" | "nil" => .ok
  | _ => .err (.target ⟨none, ident, none, .null⟩)

/-- `expect_bool`: `bool` accepts both booleans; `true` and `false`
(the only idents `str::parse::<bool>` accepts) require the matching
boolean; everything else is an error. -/
def expectBool (ident : String) (v : Value) : Res :=
  match v with
  | .bool b =>
    if ident = "bool" then .ok
    else if ident = "true" then
      if b then .ok else .err (.target ⟨none, ident, none, v⟩)
    else if ident = "false" then
      if b = false then .ok else .err (.target ⟨none, ident, none, v⟩)
    else .err (.target ⟨none, ident, none, v⟩)
  | _ => .err (.target ⟨none, ident, none, v⟩)

/-- `validate_numeric_data_type`. -/
def validateNumericDataType (emk amk : Option String) (ident : String) (v : Value) : Res :=
  match v with
  | .number n =>
    match ident with
    | "uint" =>
      match n.asU64 with
      | some _ => .ok
      | none => .err (.target ⟨emk, ident, amk, v⟩)
    | "nint" =>
      match n.asI64 with
      | some x => if x < 0 then .ok else .err (.target ⟨emk, ident, amk, v⟩)
      | none => .err (.target ⟨emk, ident, amk, v⟩)
    | "int" =>
      match n.asI64 with
      | some _ => .ok
      | none => .err (.target ⟨emk, ident, amk, v⟩)
    | "number" => .ok
    | "float16" =>
      match n.asF64 with
      | some _ => .ok
      | none => .err (.target ⟨emk, ident, amk, v⟩)
    | "float32" =>
      match n.asF64 with
      | some _ => .ok
      | none => .err (.target ⟨emk, ident, amk, v⟩)
    | _ => .err (.target ⟨emk, ident, amk, v⟩)
  | _ => .err (.target ⟨emk, ident, amk, v⟩)

/-- Modelled from the spec: RFC 3339 date parsing is delegated to the
external `chrono` crate, which is outside the analysed sources; it is
abstracted as a total predicate that no claim depends on. -/
def parseRfc3339 (_s : String) : Bool := false

/-- `validate_tdate`. -/
def validateTdate (s : String) : Res :=
  if parseRfc3339 s then .ok
  else .err (.synError ("Error parsing date value " ++ s))

/-- `validate_array_occurrence` of `validation/json/mod.rs`: length
policy per occurrence; `*` and `?` are accepted unconditionally. -/
def validateArrayOccurrenceOld (occur : Occur) (group : String) (values : List Value) : Res :=
  match occur with
  | .zeroOrMore | .optional => .ok
  | .oneOrMore =>
    if values.isEmpty then
      .err (.occurError ("Expecting one or more values of group " ++ group))
    else .ok
  | .exact lower upper =>
    match lower with
    | some li =>
      match upper with
      | some ui =>
        if values.length < li ∨ values.length > ui then
          if li = ui then
            .err (.occurError ("Expecting exactly " ++ toString li ++ " values of group " ++
              group ++ ". Got " ++ toString values.length ++ " values"))
          else
            .err (.occurError ("Expecting between " ++ toString li ++ " and " ++ toString ui ++
              " values of group " ++ group ++ ". Got " ++ toString values.length ++ " values"))
        else if values.length < li then
          .err (.occurError ("Expecting at least " ++ toString li ++ " values of group " ++
            group ++ ". Got " ++ toString values.length ++ " values"))
        else .ok
      | none =>
        if values.length < li then
          .err (.occurError ("Expecting at least " ++ toString li ++ " values of group " ++
            group ++ ". Got " ++ toString values.length ++ " values"))
        else .ok
    | none =>
      match upper with
      | some ui =>
        if values.length > ui then
          .err (.occurError ("Expecting no more than " ++ toString ui ++ " values of group " ++
            group ++ ". Got " ++ toString values.length ++ " values"))
        else .ok
      | none => .ok

/-! ### Control operators

`token::lookup_control_from_str` and the per-operator leaf checks of
`validation/json/controls.rs` are outside the analysed sources. -/

/-- Control operator tokens. -/
inductive CtlToken where
  | CREGEXP | PCRE | SIZE | BITS | CBOR | CBORSEQ | WITHIN | AND
  | LT | LE | GT | GE | EQ | NE | DEFAULT | CAT
  deriving DecidableEq, Repr

/-- Modelled from the spec: `token::lookup_control_from_str`, mapping
the operator names of spec section 4.8 to their tokens. -/
def lookupControlFromStr : String → Option CtlToken
  | "regexp" => some .CREGEXP
  | "pcre" => some .PCRE
  | "size" => some .SIZE
  | "bits" => some .BITS
  | "cbor" => some .CBOR
  | "cborseq" => some .CBORSEQ
  | "within" => some .WITHIN
  | "and" => some .AND
  | "lt" => some .LT
  | "le" => some .LE
  | "gt" => some .GT
  | "ge" => some .GE
  | "eq" => some .EQ
  | "ne" => some .NE
  | "default" => some .DEFAULT
  | "cat" => some .CAT
  | _ => none

/-- Modelled from the spec: PCRE matching is delegated to an external
regex engine outside the analysed sources; abstracted as a total
predicate that no claim depends on. -/
def pcreMatches (_pattern _s : String) : Bool := false

/-- Modelled from the spec: `validate_pcre_control` of `controls.rs`
(a text value matching the pattern passes). -/
def validatePcreControl (pattern : String) (v : Value) : Res :=
  match v with
  | .str s =>
    if pcreMatches pattern s then .ok
    else .err (.target ⟨none, "text matching pattern " ++ pattern, none, v⟩)
  | _ => .err (.target ⟨none, "text matching pattern " ++ pattern, none, v⟩)

/-- Modelled from the spec: the shared shape of the numeric comparison
controls of `controls.rs` — the target value compares against the
controller literal in its own numeric domain. -/
def numericCmpControl (ci : Int → Int → Bool) (cq : ℚ → ℚ → Bool) (d : String)
    (n : Numeric) (v : Value) : Res :=
  match v with
  | .number m =>
    match n with
    | .INT i =>
      match m.asI64 with
      | some x => if ci x i then .ok else .err (.target ⟨none, d, none, v⟩)
      | none => .err (.target ⟨none, d, none, v⟩)
    | .UINT u =>
      match m.asU64 with
      | some x => if ci x (u : Int) then .ok else .err (.target ⟨none, d, none, v⟩)
      | none => .err (.target ⟨none, d, none, v⟩)
    | .FLOAT q =>
      match m.asF64 with
      | some x => if cq x q then .ok else .err (.target ⟨none, d, none, v⟩)
      | none => .err (.target ⟨none, d, none, v⟩)
  | _ => .err (.target ⟨none, d, none, v⟩)

/-- Modelled from the spec: `validate_lt_control`. -/
def validateLtControl : Numeric → Value → Res :=
  numericCmpControl (fun a b => decide (a < b)) (fun a b => decide (a < b)) "value .lt controller"

/-- Modelled from the spec: `validate_le_control`. -/
def validateLeControl : Numeric → Value → Res :=
  numericCmpControl (fun a b => decide (a ≤ b)) (fun a b => decide (a ≤ b)) "value .le controller"

/-- Modelled from the spec: `validate_gt_control`. -/
def validateGtControl : Numeric → Value → Res :=
  numericCmpControl (fun a b => decide (a > b)) (fun a b => decide (a > b)) "value .gt controller"

/-- Modelled from the spec: `validate_ge_control`. -/
def validateGeControl : Numeric → Value → Res :=
  numericCmpControl (fun a b => decide (a ≥ b)) (fun a b => decide (a ≥ b)) "value .ge controller"

/-- Modelled from the spec: `validate_eq_numeric_control`. -/
def validateEqNumericControl : Numeric → Value → Res :=
  numericCmpControl (fun a b => decide (a = b)) (fun a b => decide (a = b)) "value .eq controller"

/-- Modelled from the spec: `validate_eq_text_control`. -/
def validateEqTextControl (c : String) (v : Value) : Res :=
  match v with
  | .str s =>
    if s = c then .ok else .err (.target ⟨none, "text .eq " ++ c, none, v⟩)
  | _ => .err (.target ⟨none, "text .eq " ++ c, none, v⟩)

/-! ### Range evaluator (`validate_range` of `validation/json/mod.rs`) -/

/-- `validate_range`: numeric range check between two bound `Type2`s;
`Typename` bounds are expanded through
`numerical_value_type_from_ident` and the alternatives folded with
error accumulation. -/
def validateRange (cddl : CDDL) : Nat → Type2 → Type2 → Bool → Value → Res
  | 0, _, _, _, _ => .noFuel
  | f + 1, lower, upper, isInclusive, v =>
    match v with
    | .number n =>
      match lower with
      | .intValue li =>
        match upper with
        | .intValue ui =>
          match n.asI64 with
          | some ni =>
            if isInclusive then
              if li ≤ ni ∧ ni ≤ ui then .ok
              else .err (.target ⟨none,
                "Range: " ++ toString li ++ " <= value <= " ++ toString ui, none, v⟩)
            else
              if li ≤ ni ∧ ni < ui then .ok
              else .err (.target ⟨none,
                "Range: " ++ toString li ++ " <= value < " ++ toString ui, none, v⟩)
          | none => .err (.target ⟨none,
              "Range: " ++ toString li ++ " <= value <= " ++ toString ui, none, v⟩)
        | .uintValue ui =>
          match n.asI64 with
          | some ni =>
            if isInclusive then
              if li ≤ ni ∧ ni ≤ usizeAsI64 ui then .ok
              else .err (.target ⟨none,
                "Range: " ++ toString li ++ " <= value <= " ++ toString ui, none, v⟩)
            else
              if li ≤ ni ∧ ni < usizeAsI64 ui then .ok
              else .err (.target ⟨none,
                "Range: " ++ toString li ++ " <= value < " ++ toString ui, none, v⟩)
          | none => .err (.target ⟨none,
              "Range between " ++ toString li ++ " and " ++ toString ui, none, v⟩)
        | .typename id _ =>
          match numericalValueTypeFromIdent cddl f id with
          | .noFuel => .noFuel
          | .done (some t2s) =>
            collectAny [] (t2s.map (fun tc => validateRange cddl f lower tc isInclusive v))
          | .done none =>
            .err (.synError ("Invalid upper range value. Type " ++ id ++ " not defined"))
        | _ => .err (.synError ("Invalid upper range value: Got " ++ type2ToString upper))
      | .uintValue li =>
        match upper with
        | .uintValue ui =>
          match n.asU64 with
          | some ni =>
            if isInclusive then
              if (li : Int) ≤ ni ∧ ni ≤ (ui : Int) then .ok
              else .err (.target ⟨none,
                "Range: " ++ toString li ++ " <= value <= " ++ toString ui, none, v⟩)
            else
              if (li : Int) ≤ ni ∧ ni < (ui : Int) then .ok
              else .err (.target ⟨none,
                "Range: " ++ toString li ++ " <= value < " ++ toString ui, none, v⟩)
          | none => .err (.target ⟨none,
              "Range between " ++ toString li ++ " and " ++ toString ui, none, v⟩)
        | .typename id _ =>
          match numericalValueTypeFromIdent cddl f id with
          | .noFuel => .noFuel
          | .done (some t2s) =>
            collectAny [] (t2s.map (fun tc => validateRange cddl f lower tc isInclusive v))
          | .done none =>
            .err (.synError ("Invalid upper range value. Type " ++ id ++ " not defined"))
        | _ => .err (.synError ("Invalid upper range value: Got " ++ type2ToString upper))
      | .floatValue lq =>
        match upper with
        | .floatValue uq =>
          match n.asF64 with
          | some nf =>
            if isInclusive then
              if lq ≤ nf ∧ nf ≤ uq then .ok
              else .err (.target ⟨none,
                "Range: " ++ toString lq ++ " <= value <= " ++ toString uq, none, v⟩)
            else
              if lq ≤ nf ∧ nf < uq then .ok
              else .err (.target ⟨none,
                "Range: " ++ toString lq ++ " <= value < " ++ toString uq, none, v⟩)
          | none => .err (.target ⟨none,
              "Range between " ++ toString lq ++ " and " ++ toString uq, none, v⟩)
        | .typename id _ =>
          match numericalValueTypeFromIdent cddl f id with
          | .noFuel => .noFuel
          | .done (some t2s) =>
            collectAny [] (t2s.map (fun tc => validateRange cddl f lower tc isInclusive v))
          | .done none =>
            .err (.synError ("Invalid upper range value. Type " ++ id ++ " not defined"))
        | _ => .err (.synError ("Invalid upper range value: Got " ++ type2ToString upper))
      | .typename id _ =>
        match numericalValueTypeFromIdent cddl f id with
        | .noFuel => .noFuel
        | .done (some t2s) =>
          collectAny [] (t2s.map (fun tc => validateRange cddl f tc upper isInclusive v))
        | .done none =>
          .err (.synError ("Invalid lower range value. Type with name " ++
            type2ToString lower ++ " not defined"))
      | _ => .err (.synError ("Invalid lower range value: Got " ++ type2ToString lower))
    | _ => .err (.target ⟨none,
        "Expected numerical value between " ++ type2ToString lower ++ " and " ++
          type2ToString upper, none, v⟩)

/-! ### Control operator engine (`validate_control_operator`) -/

/-- The shared body of the `.lt`/`.le`/`.gt`/`.ge` arms (whose
numeric-type error message names `.lt` in all four arms, as in the
source): require a numeric target, resolve the controller literals,
fold the per-literal checks with error accumulation. -/
def ctlNumericArm (cddl : CDDL) (f : Nat) (target controller : Type2) (v : Value)
    (check : Numeric → Value → Res) : Res :=
  match isTypeNumericDataType cddl f target with
  | .noFuel => .noFuel
  | .done false =>
    .err (.synError ("the .lt control operator is only defined for the numeric type. Got " ++
      type2ToString target))
  | .done true =>
    match numericValuesFromType cddl f target controller with
    | .noFuel => .noFuel
    | .done (.error e) => .err e
    | .done (.ok ns) => collectAny [] (ns.map (fun n => check n v))

/-- `validate_control_operator`: dispatch on the looked-up control
token.  Only `.pcre`/`.regexp`, `.lt`, `.le`, `.gt`, `.ge` and `.eq`
(on numeric or text targets) are handled; every other recognized
token — `.size`, `.bits`, `.cbor`, `.cborseq`, `.within`, `.and`,
`.ne`, `.default`, `.cat` — and `.eq` on any other target reach an
`unimplemented!` panic. -/
def validateControlOperator (cddl : CDDL) (f : Nat) (target : Type2) (op : String)
    (controller : Type2) (v : Value) : Res :=
  match lookupControlFromStr op with
  | some .PCRE | some .CREGEXP =>
    match isTypeStringDataType cddl f target with
    | .noFuel => .noFuel
    | .done false =>
      .err (.synError ("the .pcre control operator is only defined for the text type. Got " ++
        type2ToString target))
    | .done true =>
      match textValuesFromType cddl f controller with
      | .noFuel => .noFuel
      | .done (.error e) => .err e
      | .done (.ok cs) => collectAny [] (cs.map (fun c => validatePcreControl c v))
  | some .LT => ctlNumericArm cddl f target controller v validateLtControl
  | some .LE => ctlNumericArm cddl f target controller v validateLeControl
  | some .GT => ctlNumericArm cddl f target controller v validateGtControl
  | some .GE => ctlNumericArm cddl f target controller v validateGeControl
  | some .EQ =>
    match isTypeNumericDataType cddl f target with
    | .noFuel => .noFuel
    | .done true =>
      match numericValuesFromType cddl f target controller with
      | .noFuel => .noFuel
      | .done (.error e) => .err e
      | .done (.ok ns) => collectAny [] (ns.map (fun n => validateEqNumericControl n v))
    | .done false =>
      match isTypeStringDataType cddl f target with
      | .noFuel => .noFuel
      | .done true =>
        match textValuesFromType cddl f controller with
        | .noFuel => .noFuel
        | .done (.error e) => .err e
        | .done (.ok cs) => collectAny [] (cs.map (fun c => validateEqTextControl c v))
      | .done false => .panicked
  | _ => .panicked

/-! ### The recursive JSON validator

The mutually recursive `Validator<Value>` methods of
`validation/json/mod.rs` are embedded as one dispatcher over an
invocation type, structurally recursive on the fuel; each method gets
a wrapper below.  Loop bodies are folded over the eagerly computed
per-element results with the original short-circuiting (the functions
are pure, so this is observationally identical to the lazy loops). -/

/-- An invocation of one of the validator methods. -/
inductive Call where
  | vType (t : Ty) (emk amk : Option String) (occ : Option Occur) (v : Value)
  | vType1 (t1 : Type1) (emk amk : Option String) (occ : Option Occur) (v : Value)
  | vType2 (t2 : Type2) (emk amk : Option String) (occ : Option Occur) (v : Value)
  | vRuleForIdent (ident : String) (isEnum : Bool) (emk amk : Option String)
      (occ : Option Occur) (v : Value)
  | vTypeRule (tr : TypeRule) (emk amk : Option String) (occ : Option Occur) (v : Value)
  | vGroupRule (gr : GroupRule) (isEnum : Bool) (occ : Option Occur) (v : Value)
  | vGroup (g : Grp) (occ : Option Occur) (v : Value)
  | vGroupChoice (gc : GrpChoice) (occ : Option Occur) (v : Value)
  | vGroupEntry (ge : GroupEntry) (isEnum : Bool) (wildcard : Option Ty)
      (occ : Option Occur) (v : Value)
  | vGroupToChoiceEnum (g : Grp) (occ : Option Occur) (v : Value)

/-- The rule scan of `validate_rule_for_ident`: first rule (type or
group) with the given name. -/
def findRuleNamed : List Rule → String → Option Rule
  | [], _ => none
  | .typeRule tr :: rest, id =>
    if tr.name = id then some (.typeRule tr) else findRuleNamed rest id
  | .groupRule gr :: rest, id =>
    if gr.name = id then some (.groupRule gr) else findRuleNamed rest id

/-- Wildcard-entry detection of `validate_group_choice`: a
`ValueMemberKey` with occurrence `*`, an uncut `Type1` member key
whose `Type2` is the typename `tstr` without generic arguments. -/
def findWildcard : List GroupEntry → Option Ty
  | [] => none
  | .valueMemberKey (some .zeroOrMore) (some (.type1 t1 false)) et :: rest =>
    match t1.type2 with
    | .typename "tstr" none => some et
    | _ => findWildcard rest
  | _ :: rest => findWildcard rest

/-- One iteration of the entry loop of `validate_group_choice`:
proceed, return from the whole method, or push an error. -/
inductive GcStep where
  | cont
  | ret (r : Res)
  | pushE (e : VErr)

/-- Fold of the entry loop followed by the final
`Err(MultiError(errors))` when errors were pushed. -/
def foldSteps (acc : List VErr) : List GcStep → Res
  | [] => if acc.isEmpty then .ok else .err (.multiError acc)
  | .cont :: rest => foldSteps acc rest
  | .ret r :: _ => r
  | .pushE e :: rest => foldSteps (acc ++ [e]) rest

/-- The dispatcher for the mutually recursive validator methods. -/
def run (cddl : CDDL) : Nat → Call → Res
  | 0, _ => .noFuel
  | f + 1, c =>
    match c with
    | .vType t emk amk occ v =>
      collectAny [] (t.typeChoices.map (fun t1 => run cddl f (.vType1 t1 emk amk occ v)))
    | .vType1 t1 emk amk occ v =>
      match t1.operator with
      | some (.rangeOp isInclusive, t2) => validateRange cddl f t1.type2 t2 isInclusive v
      | some (.ctlOp ctrl, t2) => validateControlOperator cddl f t1.type2 ctrl t2 v
      | none => run cddl f (.vType2 t1.type2 emk amk occ v)
    | .vType2 t2 emk amk occ v =>
      match t2 with
      | .textValue t =>
        match v with
        | .str s =>
          if t = s then .ok else .err (.target ⟨emk, type2ToString t2, amk, v⟩)
        | _ => .err (.target ⟨emk, type2ToString t2, amk, v⟩)
      | .intValue _ | .uintValue _ | .floatValue _ =>
        match v with
        | .number _ => validateNumericValue t2 v
        | _ => .err (.target ⟨emk, type2ToString t2, amk, v⟩)
      | .typename id _ =>
        if id = "any" then .ok
        else
          match v with
          | .null => expectNull id
          | .bool _ => expectBool id v
          | .str s =>
            match id with
            | "tstr" | "text" => .ok
            | "tdate" => validateTdate s
            | "uri" => .ok
            | _ =>
              if isTypeJsonPrelude id then .err (.target ⟨emk, id, amk, v⟩)
              else run cddl f (.vRuleForIdent id false emk amk occ v)
          | .number _ => validateNumericDataType emk amk id v
          | .object _ => run cddl f (.vRuleForIdent id false emk amk occ v)
          | .array _ => run cddl f (.vRuleForIdent id false emk amk occ v)
      | .arrayT g =>
        match v with
        | .array _ => run cddl f (.vGroup g occ v)
        | _ => .err (.target ⟨emk, type2ToString t2, amk, v⟩)
      | .mapT g =>
        match v with
        | .object _ => run cddl f (.vGroup g occ v)
        | _ => .err (.target ⟨emk, type2ToString t2, amk, v⟩)
      | .choiceFromInlineGroup g => run cddl f (.vGroupToChoiceEnum g occ v)
      | .choiceFromGroup id _ => run cddl f (.vRuleForIdent id true emk amk occ v)
      | _ => .err (.synError ("CDDL type " ++ type2ToString t2 ++
          " cannot be used to validate JSON " ++ valueToString v))
    | .vRuleForIdent ident isEnum emk amk occ v =>
      match findRuleNamed cddl.rules ident with
      | some (.typeRule tr) => run cddl f (.vTypeRule tr emk amk occ v)
      | some (.groupRule gr) => run cddl f (.vGroupRule gr isEnum occ v)
      | none => .err (.synError ("No rule with name \"" ++ ident ++ "\" defined"))
    | .vTypeRule tr emk amk occ v => run cddl f (.vType tr.value emk amk occ v)
    | .vGroupRule gr isEnum occ v => run cddl f (.vGroupEntry gr.entry isEnum none occ v)
    | .vGroup g occ v =>
      collectAny [] (g.groupChoices.map (fun gc => run cddl f (.vGroupChoice gc occ v)))
    | .vGroupChoice gc occ v =>
      let wildcard := findWildcard gc.groupEntries
      foldSteps [] (gc.groupEntries.enum.map (fun p =>
        match v with
        | .array values =>
          match p.2 with
          | .inlineGroup _ group =>
            match run cddl f (.vGroup group none v) with
            | .ok => GcStep.cont
            | r => GcStep.ret r
          | .typeGroupname tocc name ga =>
            if gc.groupEntries.length = 1 then
              match tocc with
              | some o =>
                match validateArrayOccurrenceOld o name values with
                | .ok =>
                  match o, values with
                  | .zeroOrMore, [] => GcStep.ret .ok
                  | _, _ =>
                    if isTypeJsonPrelude name then
                      match allOkRes (values.map (fun vi =>
                          run cddl f (.vType2 (.typename name ga) none none none vi))) with
                      | .decided true => GcStep.ret .ok
                      | .decided false =>
                        GcStep.ret (.err (.target ⟨none, groupChoiceToString gc, none, v⟩))
                      | .abort r => GcStep.ret r
                    else
                      match allOkRes (values.map (fun vi =>
                          run cddl f (.vRuleForIdent name false none none none vi))) with
                      | .decided true => GcStep.ret .ok
                      | .decided false =>
                        GcStep.ret (.err (.target ⟨none, groupChoiceToString gc, none, v⟩))
                      | .abort r => GcStep.ret r
                | r => GcStep.ret r
              | none => GcStep.cont
            else GcStep.cont
          | .valueMemberKey vocc _ _ =>
            match vocc with
            | none =>
              match values.get? p.1 with
              | some vi =>
                match run cddl f (.vGroupEntry p.2 false none occ vi) with
                | .ok => GcStep.cont
                | r => GcStep.ret r
              | none => GcStep.cont
            | some _ => GcStep.cont
        | .object _ =>
          match run cddl f (.vGroupEntry p.2 false wildcard occ v) with
          | .ok => GcStep.cont
          | .err e => GcStep.pushE e
          | r => GcStep.ret r
        | _ => GcStep.ret (.err (.target ⟨none, groupChoiceToString gc, none, v⟩))))
    | .vGroupEntry ge isEnum wildcard occ v =>
      match ge with
      | .valueMemberKey vocc mkOpt et =>
        match mkOpt with
        | some mk =>
          match mk with
          | .type1 t1 isCut =>
            match t1.type2 with
            | .textValue t =>
              match v with
              | .object om =>
                if ¬isTypeJsonPrelude (typeToString et) then
                  match objGet om t with
                  | some vv =>
                    run cddl f (.vType et (some (memberKeyToString mk)) (some t) occ vv)
                  | none =>
                    run cddl f (.vType et (some (memberKeyToString mk)) none occ v)
                else
                  match objGet om t with
                  | some vv =>
                    let r := run cddl f (.vType et (some (memberKeyToString mk)) (some t) occ vv)
                    if r.isErr ∧ ¬isCut then
                      match wildcard with
                      | some et2 =>
                        run cddl f (.vType et2 (some (memberKeyToString mk)) (some t) occ vv)
                      | none => r
                    else r
                  | none =>
                    .err (.target ⟨some (memberKeyToString mk), groupEntryToString ge, none, v⟩)
              | _ => run cddl f (.vType et (some (memberKeyToString mk)) none occ v)
            | .typename id _ =>
              if id = "tstr" ∨ id = "text" then .ok
              else .err (.synError
                "CDDL member key must be quoted string or bareword for validating JSON objects")
            | _ => .err (.synError
                "CDDL member key must be quoted string or bareword for validating JSON objects")
          | .bareword id =>
            match v with
            | .object om =>
              if ¬isTypeJsonPrelude (typeToString et) then
                match objGet om id with
                | some vv =>
                  run cddl f (.vType et (some (memberKeyToString mk)) (some id) vocc vv)
                | none =>
                  run cddl f (.vType et (some (memberKeyToString mk)) none vocc v)
              else
                match objGet om id with
                | some vv =>
                  run cddl f (.vType et (some (memberKeyToString mk)) (some id) vocc vv)
                | none =>
                  match occ with
                  | some .optional | some .oneOrMore => .ok
                  | _ => .err (.target ⟨some (memberKeyToString mk),
                      memberKeyToString mk ++ " " ++ typeToString et, none, v⟩)
            | _ => run cddl f (.vType et (some (memberKeyToString mk)) none vocc v)
          | .valueKey _ => .err (.synError
              "CDDL member key must be quoted string or bareword for validating JSON objects")
        | none => run cddl f (.vType et none none occ v)
      | .typeGroupname tocc name _ =>
        run cddl f (.vRuleForIdent name isEnum none none tocc v)
      | .inlineGroup igo g =>
        match igo with
        | some _ =>
          if isEnum then run cddl f (.vGroupToChoiceEnum g igo v)
          else run cddl f (.vGroup g igo v)
        | none =>
          if isEnum then run cddl f (.vGroupToChoiceEnum g occ v)
          else run cddl f (.vGroup g occ v)
    | .vGroupToChoiceEnum g occ v =>
      collectAnyOpt [] ((g.groupChoices.map (fun gc => gc.groupEntries.map (fun ge =>
        match ge with
        | .valueMemberKey _ _ et => some (run cddl f (.vType et none none occ v))
        | _ => none))).flatten)

/-! ### Method wrappers -/

/-- `validate_type`. -/
def validateType (cddl : CDDL) (fuel : Nat) (t : Ty) (emk amk : Option String)
    (occ : Option Occur) (v : Value) : Res :=
  run cddl fuel (.vType t emk amk occ v)

/-- `validate_type1`. -/
def validateType1 (cddl : CDDL) (fuel : Nat) (t1 : Type1) (emk amk : Option String)
    (occ : Option Occur) (v : Value) : Res :=
  run cddl fuel (.vType1 t1 emk amk occ v)

/-- `validate_type2`. -/
def validateType2 (cddl : CDDL) (fuel : Nat) (t2 : Type2) (emk amk : Option String)
    (occ : Option Occur) (v : Value) : Res :=
  run cddl fuel (.vType2 t2 emk amk occ v)

/-- `validate_rule_for_ident`. -/
def validateRuleForIdent (cddl : CDDL) (fuel : Nat) (ident : String) (isEnum : Bool)
    (emk amk : Option String) (occ : Option Occur) (v : Value) : Res :=
  run cddl fuel (.vRuleForIdent ident isEnum emk amk occ v)

/-- `validate_group`. -/
def validateGroup (cddl : CDDL) (fuel : Nat) (g : Grp) (occ : Option Occur) (v : Value) : Res :=
  run cddl fuel (.vGroup g occ v)

/-- `validate_group_choice`. -/
def validateGroupChoice (cddl : CDDL) (fuel : Nat) (gc : GrpChoice) (occ : Option Occur)
    (v : Value) : Res :=
  run cddl fuel (.vGroupChoice gc occ v)

/-- `validate_group_entry`. -/
def validateGroupEntry (cddl : CDDL) (fuel : Nat) (ge : GroupEntry) (isEnum : Bool)
    (wildcard : Option Ty) (occ : Option Occur) (v : Value) : Res :=
  run cddl fuel (.vGroupEntry ge isEnum wildcard occ v)

/-- `validate_group_to_choice_enum`. -/
def validateGroupToChoiceEnum (cddl : CDDL) (fuel : Nat) (g : Grp) (occ : Option Occur)
    (v : Value) : Res :=
  run cddl fuel (.vGroupToChoiceEnum g occ v)

/-- The first type rule of the document (the root of validation). -/
def findFirstTypeRule : List Rule → Option TypeRule
  | [] => none
  | .typeRule tr :: _ => some tr
  | .groupRule _ :: rest => findFirstTypeRule rest

/-- `Validator::validate` for JSON: run the first type rule as root,
or succeed when the document has no type rule at all. -/
def validate (cddl : CDDL) (fuel : Nat) (v : Value) : Res :=
  match findFirstTypeRule cddl.rules with
  | some tr => run cddl fuel (.vTypeRule tr none none none v)
  | none => .ok

/-- Is a rule a type rule. -/
def Rule.isTypeR : Rule → Bool
  | .typeRule _ => true
  | .groupRule _ => false

/-! ### Concrete documents used by the theorems -/

/-- The type `int`. -/
def exIntTy : Ty := .mk [.mk (.typename "int" none) none]

/-- The type `any` (as the prelude typename). -/
def exAnyTy : Ty := .mk [.mk (.typename "any" none) none]

/-- The wildcard entry `* tstr => any`. -/
def exWildcardEntry : GroupEntry :=
  .valueMemberKey (some .zeroOrMore)
    (some (.type1 (Type1.mk (.typename "tstr" none) none) false)) exAnyTy

/-- The entry `? "optional-key" ^ => int`. -/
def exCutEntry : GroupEntry :=
  .valueMemberKey (some .optional)
    (some (.type1 (Type1.mk (.textValue "optional-key") none) true)) exIntTy

/-- `extensible-map-example = ( ? "optional-key" ^ => int, * tstr => any )` as a map. -/
def exCutCddl : CDDL :=
  ⟨[.typeRule ⟨"extensible-map-example", none, false,
    .mk [.mk (.mapT (.mk [.mk [exCutEntry, exWildcardEntry]])) none]⟩]⟩

/-- The entry `"k" => myint` (no cut, non-prelude entry type). -/
def exNpEntry : GroupEntry :=
  .valueMemberKey none (some (.type1 (Type1.mk (.textValue "k") none) false))
    (.mk [.mk (.typename "myint" none) none])

/-- `root = ( "k" => myint, * tstr => any )` as a map, with `myint = int`. -/
def exNpCddl : CDDL :=
  ⟨[.typeRule ⟨"root", none, false,
      .mk [.mk (.mapT (.mk [.mk [exNpEntry, exWildcardEntry]])) none]⟩,
    .typeRule ⟨"myint", none, false, exIntTy⟩]⟩

/-- The entry `? mykey: int`. -/
def exOptEntry : GroupEntry :=
  .valueMemberKey (some .optional) (some (.bareword "mykey")) exIntTy

/-- `root = ( ? mykey: int )` as a map. -/
def exOptKeyCddl : CDDL :=
  ⟨[.typeRule ⟨"root", none, false, .mk [.mk (.mapT (.mk [.mk [exOptEntry]])) none]⟩]⟩

/-- `root = tstr .size 5`. -/
def exSizeCddl : CDDL :=
  ⟨[.typeRule ⟨"root", none, false,
    .mk [.mk (.typename "tstr" none) (some (.ctlOp "size", .uintValue 5))]⟩]⟩

/-- `root = int .eq 5`. -/
def exEqCddl : CDDL :=
  ⟨[.typeRule ⟨"root", none, false,
    .mk [.mk (.typename "int" none) (some (.ctlOp "eq", .intValue 5))]⟩]⟩

/-- `myrange = lower .. upper` with `lower = -1` and `upper = 1 / 3`
(the range scenario of the spec). -/
def exRangeCddl : CDDL :=
  ⟨[.typeRule ⟨"myrange", none, false,
      .mk [.mk (.typename "lower" none) (some (.rangeOp true, .typename "upper" none))]⟩,
    .typeRule ⟨"lower", none, false, .mk [.mk (.intValue (-1)) none]⟩,
    .typeRule ⟨"upper", none, false, .mk [.mk (.uintValue 1) none, .mk (.uintValue 3) none]⟩]⟩

/-- `myrange = lower .. upper` with `lower = -1` and `upper = 5 / s`,
`s = 3`: a literal choice followed by a typename choice. -/
def exRangeMixedCddl : CDDL :=
  ⟨[.typeRule ⟨"myrange", none, false,
      .mk [.mk (.typename "lower" none) (some (.rangeOp true, .typename "upper" none))]⟩,
    .typeRule ⟨"lower", none, false, .mk [.mk (.intValue (-1)) none]⟩,
    .typeRule ⟨"upper", none, false,
      .mk [.mk (.uintValue 5) none, .mk (.typename "s" none) none]⟩,
    .typeRule ⟨"s", none, false, .mk [.mk (.uintValue 3) none]⟩]⟩

/-- The interior group of the container rule `N`. -/
def exNBodyGrp : Grp :=
  .mk [.mk [.valueMemberKey none (some (.bareword "mykey")) exIntTy]]

/-- `N = ( mykey: int )` as a map rule. -/
def exNRule : TypeRule := ⟨"N", none, false, .mk [.mk (.mapT exNBodyGrp) none]⟩

/-- `root = ~N` with `N` a map rule. -/
def exUnwrapCddl : CDDL :=
  ⟨[.typeRule ⟨"root", none, false, .mk [.mk (.unwrap "N" none) none]⟩,
    .typeRule exNRule]⟩

/-- The cyclic document `a = a`. -/
def exCycCddl : CDDL :=
  ⟨[.typeRule ⟨"a", none, false, .mk [.mk (.typename "a" none) none]⟩]⟩

/-- The acyclic document `b = int`. -/
def exAcyCddl : CDDL :=
  ⟨[.typeRule ⟨"b", none, false, .mk [.mk (.typename "int" none) none]⟩]⟩

/-- A document holding only a group rule. -/
def exGroupOnlyCddl : CDDL :=
  ⟨[.groupRule ⟨"colors", none, false, .inlineGroup none (.mk [.mk []])⟩]⟩

/-- A two-choice text type `"a" / "b"`. -/
def exTwoChoiceTy : Ty :=
  .mk [.mk (.textValue "a") none, .mk (.textValue "b") none]

/-- `Except.isOk` for the new array-occurrence checker. -/
def exceptOk {ε α : Type} : Except ε α → Bool
  | .ok _ => true
  | .error _ => false

/-- Following the claim wording (and not the source): all numeric
literal type choices of the rules named `ident`, transitively through
every rule reference, each reference expanded in place. -/
def specNumericLiteralChoices (cddl : CDDL) : Nat → String → List Type2
  | 0, _ => []
  | f + 1, ident =>
    ((choiceType2sOfRulesNamed cddl.rules ident).map (fun t2 =>
      match t2 with
      | .intValue i => [Type2.intValue i]
      | .uintValue n => [Type2.uintValue n]
      | .floatValue q => [Type2.floatValue q]
      | .typename id2 _ => specNumericLiteralChoices cddl f id2
      | _ => [])).flatten

/-! ### Lemmas about the alternation fold -/

/-- When every alternative settles, the alternation fold succeeds
exactly when some alternative succeeded. -/
theorem collectAny_eq_ok_iff (rs : List Res) (acc : List VErr)
    (h : ∀ r ∈ rs, r.isSettled = true) :
    collectAny acc rs = .ok ↔ .ok ∈ rs := by
  induction rs generalizing acc with
  | nil => simp [collectAny]
  | cons r rest ih =>
    cases r with
    | ok => simp [collectAny]
    | err e =>
      have hrest : ∀ r ∈ rest, r.isSettled = true :=
        fun r hr => h r (List.mem_cons_of_mem _ hr)
      simp [collectAny, ih (acc ++ [e]) hrest]
    | panicked => exact absurd (h _ (List.mem_cons_self _ _)) (by simp [Res.isSettled])
    | noFuel => exact absurd (h _ (List.mem_cons_self _ _)) (by simp [Res.isSettled])

/-- When every alternative fails, the alternation fold returns a
`MultiError` of the per-alternative errors in order. -/
theorem collectAny_all_err (rs : List Res) (acc : List VErr)
    (h : ∀ r ∈ rs, r.isErr = true) :
    collectAny acc rs = .err (.multiError (acc ++ rs.map Res.errOf)) := by
  induction rs generalizing acc with
  | nil => simp [collectAny]
  | cons r rest ih =>
    cases r with
    | ok => exact absurd (h _ (List.mem_cons_self _ _)) (by simp [Res.isErr])
    | err e =>
      have hrest : ∀ r ∈ rest, r.isErr = true :=
        fun r hr => h r (List.mem_cons_of_mem _ hr)
      simp [collectAny, ih (acc ++ [e]) hrest, Res.errOf]
    | panicked => exact absurd (h _ (List.mem_cons_self _ _)) (by simp [Res.isErr])
    | noFuel => exact absurd (h _ (List.mem_cons_self _ _)) (by simp [Res.isErr])

/-- A one-element alternation fold settles exactly when its element
does. -/
theorem collectAny_singleton_settled (r : Res) :
    (collectAny [] [r]).isSettled = r.isSettled := by
  cases r <;> rfl

/-- A document whose rules all fail `isTypeR` has no first type rule. -/
theorem findFirstTypeRule_eq_none (rs : List Rule) (h : ∀ r ∈ rs, r.isTypeR = false) :
    findFirstTypeRule rs = none := by
  induction rs with
  | nil => rfl
  | cons r rest ih =>
    cases r with
    | typeRule tr => exact absurd (h _ (List.mem_cons_self _ _)) (by simp [Rule.isTypeR])
    | groupRule gr =>
      show findFirstTypeRule rest = none
      exact ih (fun r hr => h r (List.mem_cons_of_mem _ hr))

/-! ### Claim theorems -/

/-- C1: `validate_type` succeeds iff at least one of the type choices
validates the value (the choices being tried in declaration order),
and when every choice fails it returns a `MultiError` holding one
error per failed choice, in declaration order. -/
theorem c1_validate_type_alternation (cddl : CDDL) (f : Nat) (t : Ty)
    (emk amk : Option String) (occ : Option Occur) (v : Value)
    (h : ∀ t1 ∈ t.typeChoices, (validateType1 cddl f t1 emk amk occ v).isSettled = true) :
    (validateType cddl (f + 1) t emk amk occ v = .ok ↔
      ∃ t1 ∈ t.typeChoices, validateType1 cddl f t1 emk amk occ v = .ok) ∧
    ((∀ t1 ∈ t.typeChoices, (validateType1 cddl f t1 emk amk occ v).isErr = true) →
      validateType cddl (f + 1) t emk amk occ v =
        .err (.multiError (t.typeChoices.map
          (fun t1 => (validateType1 cddl f t1 emk amk occ v).errOf)))) := by
  have hrun : validateType cddl (f + 1) t emk amk occ v =
      collectAny [] (t.typeChoices.map (fun t1 => validateType1 cddl f t1 emk amk occ v)) := rfl
  constructor
  · rw [hrun, collectAny_eq_ok_iff]
    · simp [List.mem_map, eq_comm]
    · intro r hr
      rcases List.mem_map.mp hr with ⟨t1, ht1, rfl⟩
      exact h t1 ht1
  · intro hall
    rw [hrun, collectAny_all_err]
    · simp [List.map_map]
    · intro r hr
      rcases List.mem_map.mp hr with ⟨t1, ht1, rfl⟩
      exact hall t1 ht1

/-- C1 witness: the two-choice type `"a" / "b"` accepts the string
`"b"` because its second choice does. -/
theorem c1_validate_type_alternation_witness :
    validateType ⟨[]⟩ 3 exTwoChoiceTy none none none (.str "b") = .ok := by
  have h := c1_validate_type_alternation ⟨[]⟩ 2 exTwoChoiceTy none none none (.str "b")
    (by decide)
  exact h.1.mpr ⟨Type1.mk (.textValue "b") none, by simp [exTwoChoiceTy, Ty.typeChoices], rfl⟩

/-- C4 counterexample: against the map schema `( ? mykey: int )`, the
empty map is rejected — the entry with occurrence `?` and absent key
does not validate, contrary to the claim — while the map holding the
key does validate. -/
theorem c4_optional_absent_counterexample :
    (validate exOptKeyCddl 12 (.object [])).isOk = false ∧
    (validate exOptKeyCddl 12 (.object [("mykey", .number (.int 3))])).isOk = true :=
  ⟨rfl, rfl⟩

/-- C4 amended: for a bareword member key with the key absent from the
map, the verdict depends on whether the entry type prints as a JSON
prelude name.  If it does, the outcome is decided by the occurrence
parameter inherited from the enclosing context — not by the entry's
own occurrence: `Ok` when that parameter is `?` or `+`, and a
missing-key error otherwise (including `*`, `Exact`, and no
occurrence, as at the top level of a map schema).  If it does not,
there is no missing-key check at all: the enclosing object itself is
validated against the entry type, with the entry's own occurrence
passed along. -/
theorem c4_bareword_absent_uses_context_occurrence (cddl : CDDL) (f : Nat) (id : String)
    (et : Ty) (vocc : Option Occur) (wildcard : Option Ty) (occ : Option Occur)
    (om : List (String × Value))
    (hget : objGet om id = none) :
    validateGroupEntry cddl (f + 1)
      (.valueMemberKey vocc (some (.bareword id)) et) false wildcard occ (.object om) =
      (if isTypeJsonPrelude (typeToString et) then
        (match occ with
         | some .optional | some .oneOrMore => .ok
         | _ => .err (.target ⟨some id, id ++ " " ++ typeToString et, none, .object om⟩))
       else validateType cddl f et (some id) none vocc (.object om)) := by
  by_cases hpre : isTypeJsonPrelude (typeToString et) = true
  · simp only [validateGroupEntry, run, memberKeyToString, hpre, hget, not_true,
      Bool.not_eq_true, ite_false, ite_true]
  · rw [Bool.not_eq_true] at hpre
    simp only [validateGroupEntry, run, memberKeyToString, hpre, hget, Bool.false_eq_true,
      not_false_iff, ite_true, ite_false, validateType]

/-- C4 witness: the entry `? mykey: int` of the schema above, with the
key absent and no inherited occurrence, yields the missing-key
error. -/
theorem c4_bareword_absent_witness :
    validateGroupEntry exOptKeyCddl 7 exOptEntry false none none (.object []) =
      .err (.target ⟨some "mykey", "mykey" ++ " " ++ typeToString exIntTy, none, .object []⟩) := by
  have hc : isTypeJsonPrelude (typeToString exIntTy) = true := rfl
  have h := c4_bareword_absent_uses_context_occurrence exOptKeyCddl 6 "mykey" exIntTy
    (some .optional) none none [] rfl
  simpa [exOptEntry, hc] using h

/-- C2 counterexample: for the map schema `( "k" => myint, * tstr =>
any )` with `myint = int` and the value mapping `k` to the string
`"x"`, the member value fails the (uncut) entry type, the wildcard
entry type `any` accepts it, yet validation fails: no wildcard
fallback happens because the entry type does not print as a JSON
prelude name. -/
theorem c2_cut_fallback_counterexample :
    (validate exNpCddl 16 (.object [("k", .str "x")])).isOk = false ∧
    (validateType exNpCddl 16 (.mk [.mk (.typename "myint" none) none])
      none none none (.str "x")).isErr = true ∧
    validateType exNpCddl 16 exAnyTy none none none (.str "x") = .ok :=
  ⟨rfl, rfl, rfl⟩

/-- C2 amended: for a `Type1` text member key whose entry type prints
as a JSON prelude name, when the key is present and its value fails
the entry type, a set cut marker makes the entry fail with that error
and no wildcard fallback; without the cut marker the value is instead
validated against the wildcard entry type when one exists (and the
error is returned when none does).  For non-prelude entry types the
error is returned without any wildcard fallback regardless of cut. -/
theorem c2_cut_semantics (cddl : CDDL) (f : Nat) (k : String)
    (kop : Option (RangeCtlOp × Type2)) (isCut : Bool) (et : Ty) (vocc : Option Occur)
    (wildcard : Option Ty) (occ : Option Occur) (om : List (String × Value)) (vv : Value)
    (e : VErr)
    (hpre : isTypeJsonPrelude (typeToString et) = true)
    (hget : objGet om k = some vv)
    (hfail : validateType cddl f et
      (some (memberKeyToString (.type1 (Type1.mk (.textValue k) kop) isCut))) (some k) occ vv =
      .err e) :
    validateGroupEntry cddl (f + 1)
      (.valueMemberKey vocc (some (.type1 (Type1.mk (.textValue k) kop) isCut)) et) false
      wildcard occ (.object om) =
      (if isCut then .err e
       else
        match wildcard with
        | some w => validateType cddl f w
            (some (memberKeyToString (.type1 (Type1.mk (.textValue k) kop) isCut))) (some k)
            occ vv
        | none => .err e) := by
  rw [validateType] at hfail
  simp only [validateGroupEntry, run, Type1.type2, hpre, hget, not_true, Bool.not_eq_true,
    ite_false, ite_true]
  rw [hfail]
  cases isCut <;> cases wildcard <;> simp [Res.isErr, validateType]

/-- C2 witness: the spec schema `( ? "optional-key" ^ => int, * tstr
=> any )` with the value mapping the key to the string `"x"`: the cut
is set, so the entry fails with the `int` mismatch error and no
wildcard fallback. -/
theorem c2_cut_semantics_witness :
    validateGroupEntry exCutCddl 11 exCutEntry false (some exAnyTy) none
      (.object [("optional-key", .str "x")]) =
      .err ((validateType exCutCddl 10 exIntTy
        (some (memberKeyToString (.type1 (Type1.mk (.textValue "optional-key") none) true)))
        (some "optional-key") none (.str "x")).errOf) := by
  have h := c2_cut_semantics exCutCddl 10 "optional-key" none true exIntTy (some .optional)
    (some exAnyTy) none [("optional-key", .str "x")] (.str "x")
    ((validateType exCutCddl 10 exIntTy
      (some (memberKeyToString (.type1 (Type1.mk (.textValue "optional-key") none) true)))
      (some "optional-key") none (.str "x")).errOf) rfl rfl rfl
  simpa [exCutEntry] using h

/-- C10: when the document contains no type rule at all (empty, or
group rules only), `validate` returns `Ok` for every value. -/
theorem c10_validate_without_type_rule (cddl : CDDL) (fuel : Nat) (v : Value)
    (h : ∀ r ∈ cddl.rules, r.isTypeR = false) :
    validate cddl fuel v = .ok := by
  unfold validate
  rw [findFirstTypeRule_eq_none cddl.rules h]

/-- C10 witness: a document with one group rule and no type rule
accepts `null` (at any fuel, here zero). -/
theorem c10_validate_without_type_rule_witness :
    validate exGroupOnlyCddl 0 .null = .ok :=
  c10_validate_without_type_rule exGroupOnlyCddl 0 .null (by decide)

/-- The numeric comparison controls always settle (return `Ok` or
`Err`). -/
theorem numericCmpControl_settled (ci : Int → Int → Bool) (cq : ℚ → ℚ → Bool) (d : String)
    (n : Numeric) (v : Value) : (numericCmpControl ci cq d n v).isSettled = true := by
  cases v with
  | number m =>
    cases n with
    | INT i =>
      rcases h : m.asI64 with _ | x <;> simp only [numericCmpControl, h]
      · rfl
      · split <;> rfl
    | UINT u =>
      rcases h : m.asU64 with _ | x <;> simp only [numericCmpControl, h]
      · rfl
      · split <;> rfl
    | FLOAT q =>
      rcases h : m.asF64 with _ | x <;> simp only [numericCmpControl, h]
      · rfl
      · split <;> rfl
  | null => rfl
  | bool b => rfl
  | str s => rfl
  | array vs => rfl
  | object kvs => rfl

/-- C3 counterexample: validating the string `"abc"` against
`root = tstr .size 5` aborts with a panic (the `.size` arm of the
control engine is `unimplemented!`) instead of returning an `Ok`/`Err`
outcome. -/
theorem c3_size_panic_counterexample :
    validate exSizeCddl 16 (.str "abc") = .panicked := rfl

/-- C3 amended: the control operators `.size`, `.cat`, `.ne`, `.and`,
`.within`, `.default` and `.bits` — and `.eq` on a non-numeric,
non-text target — abort with a panic for every target, controller and
value, while the implemented `.eq` on a numeric target always returns
an `Ok`/`Err` outcome. -/
theorem c3_control_partial_totality :
    (∀ (cddl : CDDL) (f : Nat) (target controller : Type2) (v : Value),
      validateControlOperator cddl f target "size" controller v = .panicked ∧
      validateControlOperator cddl f target "cat" controller v = .panicked ∧
      validateControlOperator cddl f target "ne" controller v = .panicked ∧
      validateControlOperator cddl f target "and" controller v = .panicked ∧
      validateControlOperator cddl f target "within" controller v = .panicked ∧
      validateControlOperator cddl f target "default" controller v = .panicked ∧
      validateControlOperator cddl f target "bits" controller v = .panicked) ∧
    (∀ (controller : Type2) (v : Value),
      validateControlOperator ⟨[]⟩ 5 (.uintValue 1) "eq" controller v = .panicked) ∧
    (∀ v : Value,
      (validateControlOperator exEqCddl 5 (.typename "int" none) "eq"
        (.intValue 5) v).isSettled = true) := by
  refine ⟨fun cddl f target controller v => ⟨rfl, rfl, rfl, rfl, rfl, rfl, rfl⟩,
    fun controller v => rfl, fun v => ?_⟩
  show (collectAny [] [validateEqNumericControl (.INT 5) v]).isSettled = true
  rw [collectAny_singleton_settled]
  exact numericCmpControl_settled _ _ _ _ v

/-- C5 counterexample: the `UintValue 5` literal accepts the JSON
number 7, though 7 is not numerically equal to 5. -/
theorem c5_uint_literal_counterexample :
    validateType2 ⟨[]⟩ 2 (.uintValue 5) none none none (.number (.int 7)) = .ok ∧
    (7 : Int) ≠ 5 := ⟨rfl, by decide⟩

/-- C5 amended: an `IntValue` literal matches exactly the numbers
`as_i64`-convertible and equal to it (so no float-classified number),
a `FloatValue` literal matches the numbers whose `as_f64` value lies
within `f64::EPSILON` of it, and a `UintValue` literal accepts every
JSON number whatsoever. -/
theorem c5_numeric_literal_semantics (i : Int) (u : Nat) (q : ℚ) (v : Value) :
    (validateNumericValue (.intValue i) v = .ok ↔
      ∃ n, v = .number n ∧ n.asI64 = some i) ∧
    (validateNumericValue (.floatValue q) v = .ok ↔
      ∃ n x, v = .number n ∧ n.asF64 = some x ∧ |x - q| < f64Epsilon) ∧
    (∀ n, validateNumericValue (.uintValue u) (.number n) = .ok) := by
  refine ⟨?_, ?_, fun n => rfl⟩
  · cases v with
    | number n =>
      rcases h : n.asI64 with _ | x <;> simp only [validateNumericValue, h]
      · constructor
        · intro hok; exact absurd hok (by simp)
        · rintro ⟨n2, hn, ha⟩
          injection hn with hn
          subst hn
          rw [h] at ha
          cases ha
      · constructor
        · intro hok
          by_cases hx : x = i
          · exact ⟨n, rfl, hx ▸ h⟩
          · rw [if_neg hx] at hok
            exact absurd hok (by simp)
        · rintro ⟨n2, hn, ha⟩
          injection hn with hn
          subst hn
          rw [h] at ha
          injection ha with ha
          rw [if_pos ha]
    | null => simp [validateNumericValue]
    | bool b => simp [validateNumericValue]
    | str s => simp [validateNumericValue]
    | array vs => simp [validateNumericValue]
    | object kvs => simp [validateNumericValue]
  · cases v with
    | number n =>
      rcases h : n.asF64 with _ | x <;> simp only [validateNumericValue, h]
      · constructor
        · intro hok; exact absurd hok (by simp)
        · rintro ⟨n2, x, hn, ha, _⟩
          injection hn with hn
          subst hn
          rw [h] at ha
          cases ha
      · constructor
        · intro hok
          by_cases hx : |x - q| < f64Epsilon
          · exact ⟨n, x, rfl, h, hx⟩
          · rw [if_neg hx] at hok
            exact absurd hok (by simp)
        · rintro ⟨n2, x2, hn, ha, hx⟩
          injection hn with hn
          subst hn
          rw [h] at ha
          injection ha with ha
          subst ha
          rw [if_pos hx]
    | null => simp [validateNumericValue]
    | bool b => simp [validateNumericValue]
    | str s => simp [validateNumericValue]
    | array vs => simp [validateNumericValue]
    | object kvs => simp [validateNumericValue]

/-- C6 counterexample: the `validation/json` implementation of
`validate_array_occurrence` accepts a two-element array for the `?`
occurrence, where the claim requires failure. -/
theorem c6_optional_occurrence_counterexample :
    validateArrayOccurrenceOld .optional "g" [.null, .null] = .ok := rfl

/-- C6 amended: in the `validator` module implementation, `?` fails
exactly when the array has more than one element and `+` fails
exactly when it is empty; in the `validation/json` implementation,
`?` always succeeds regardless of length while `+` still fails
exactly when the array is empty. -/
theorem c6_array_occurrence_semantics (g : String) (ec : Option (List EntryCount))
    (vs : List Value) :
    validateArrayOccurrenceOld .optional g vs = .ok ∧
    (validateArrayOccurrenceOld .oneOrMore g vs = .ok ↔ vs ≠ []) ∧
    (exceptOk (validateArrayOccurrenceNew (some .optional) ec vs) = true ↔ vs.length ≤ 1) ∧
    (exceptOk (validateArrayOccurrenceNew (some .oneOrMore) ec vs) = true ↔ vs ≠ []) := by
  refine ⟨rfl, ?_, ?_, ?_⟩
  · cases vs with
    | nil => simp [validateArrayOccurrenceOld]
    | cons x xs => simp [validateArrayOccurrenceOld]
  · by_cases h : vs.length > 1
    · simp [validateArrayOccurrenceNew, h, exceptOk]
      try omega
    · simp [validateArrayOccurrenceNew, h, exceptOk]
      try omega
  · cases vs with
    | nil =>
      cases ec with
      | none => simp [validateArrayOccurrenceNew, exceptOk]
      | some ecs =>
        by_cases h : validateEntryCount ecs 0 <;>
          simp [validateArrayOccurrenceNew, h, exceptOk]
    | cons x xs => simp [validateArrayOccurrenceNew, exceptOk]

/-- C7 counterexample: with `lower = -1` and `upper = 5 / s`, `s = 3`,
the claimed transitive expansion of `upper` is the two literals 5 and
3 and the value 4 lies within the range formed from -1 and 5, yet
validation of 4 against `myrange = lower..upper` fails — the
evaluator discards the literal 5 when it meets the typename choice
`s`. -/
theorem c7_range_expansion_counterexample :
    (validate exRangeMixedCddl 12 (.number (.int 4))).isOk = false ∧
    specNumericLiteralChoices exRangeMixedCddl 5 "upper" = [.uintValue 5, .uintValue 3] ∧
    ((-1 : Int) ≤ 4 ∧ (4 : Int) ≤ 5) := ⟨rfl, rfl, by decide⟩

/-- C7 amended: a typename range bound is expanded by
`numerical_value_type_from_ident`, which collects the numeric literal
choices of the referenced rules but, at the first typename choice,
returns that rule's expansion alone, discarding the literals already
collected; the range check succeeds iff the value lies in a range
formed from this partial expansion.  The spec scenario (`lower = -1`,
`upper = 1 / 3`) accepts 3 and rejects 4. -/
theorem c7_range_expansion_amended :
    numericalValueTypeFromIdent exRangeMixedCddl 5 "upper" = .done (some [.uintValue 3]) ∧
    (validate exRangeCddl 12 (.number (.int 3))).isOk = true ∧
    (validate exRangeCddl 12 (.number (.int 4))).isOk = false := ⟨rfl, rfl, rfl⟩

/-- C8 counterexample: `root = ~N` with `N` a map rule whose interior
accepts the value, and `unwrap_rule_from_ident` resolving `N` to that
container rule; yet validating the value against `~N` fails (with a
syntax error, not an unwrap-not-container error), while validating
directly against the interior group succeeds. -/
theorem c8_unwrap_identity_counterexample :
    (validate exUnwrapCddl 12 (.object [("mykey", .number (.int 1))])).isOk = false ∧
    validateGroup exUnwrapCddl 12 exNBodyGrp none (.object [("mykey", .number (.int 1))]) = .ok ∧
    unwrapRuleFromIdent exUnwrapCddl 3 "N" = .done (some (.typeRule exNRule)) :=
  ⟨rfl, rfl, rfl⟩

/-- C8 amended: in the `validation/json` validator the unwrap form is
unsupported: `validate_type2` reaches its catch-all arm and returns a
syntax error for every identifier and every value, so the unwrap
identity does not hold there (resolution via `unwrap_rule_from_ident`
exists only in the `validator` module). -/
theorem c8_unwrap_always_syntax_error (cddl : CDDL) (f : Nat) (id : String)
    (ga : Option Unit) (emk amk : Option String) (occ : Option Occur) (v : Value) :
    validateType2 cddl (f + 1) (.unwrap id ga) emk amk occ v =
      .err (.synError ("CDDL type " ++ ("~" ++ id) ++ " cannot be used to validate JSON " ++
        valueToString v)) := rfl

/-- Divergence of `is_ident_numeric_data_type` at a concrete
identifier: every finite recursion depth is exhausted without an
answer. -/
def IdentNumericDiverges (cddl : CDDL) (id : String) : Prop :=
  ∀ fuel : Nat, isIdentNumericDataType cddl fuel id = .noFuel

/-- C9 counterexample: on the cyclic document `a = a`, the transitive
numeric predicate of `validator/mod.rs` exhausts every finite
recursion depth — there is no visited-identifier tracking, so it
never returns. -/
theorem c9_numeric_predicate_cycle_counterexample :
    IdentNumericDiverges exCycCddl "a" := by
  intro fuel
  induction fuel with
  | zero => rfl
  | succ f ih =>
    calc isIdentNumericDataType exCycCddl (f + 1) "a"
        = anyFuelled [isIdentNumericDataType exCycCddl f "a"] := rfl
      _ = anyFuelled [.noFuel] := by rw [ih]
      _ = .noFuel := rfl

/-- C9 amended: the transitive prelude predicates follow rule
references with no visited-identifier tracking: on the cyclic
document `a = a` the `validation` module predicate exhausts every
finite recursion depth, while on acyclic references (`b = int`) both
predicates settle. -/
theorem c9_numeric_predicate_no_visited_tracking :
    (∀ fuel : Nat, isTypeNumericDataType exCycCddl fuel (.typename "a" none) = .noFuel) ∧
    isIdentNumericDataType exAcyCddl 2 "b" = .done true ∧
    isTypeNumericDataType exAcyCddl 2 (.typename "b" none) = .done true := by
  refine ⟨?_, rfl, rfl⟩
  intro fuel
  induction fuel with
  | zero => rfl
  | succ f ih =>
    calc isTypeNumericDataType exCycCddl (f + 1) (.typename "a" none)
        = anyFuelled [isTypeNumericDataType exCycCddl f (.typename "a" none)] := rfl
      _ = anyFuelled [.noFuel] := by rw [ih]
      _ = .noFuel := rfl

end CddlSpec
